import Mathlib

/-!
# Verification development for the pile-designer repository

This file shallowly embeds the data model and operations of the
pile-designer application (a React/TypeScript front end driving a
numerical pile-analysis solver) and proves properties of them.

The embedding distinguishes two layers:

* The TypeScript front end (`src/App.tsx`, `src/engine/pyodide-loader.ts`,
  `src/types/pile-types.ts`, `src/components/...`) is present in the
  repository and is embedded directly: payload construction in
  `handleAnalyze`, the module-level caching of `loadPyodide`, and the
  solution-history operations.

* The numerical core `src/engine/pile-solver.py` is loaded at runtime and
  is not part of the repository sources; definitions for it are modelled
  from the specification and carry a doc comment starting
  `Modelled from the spec:`.

Machine reals of the program are modelled as `ℚ` where the code is pure
arithmetic and control flow, and as `ℝ` for the P-Y constitutive formulas
(which involve `tanh`, cube roots and square roots).
-/

namespace PileDesigner

/-! ## Data model (from `src/types/pile-types.ts`) -/

/-- Type `PileMaterial` from `pile-types.ts`: material tag, informational only. -/
inductive PileMaterial where
  | steel
  | concrete
  | timber
  | composite
deriving DecidableEq, Repr

/-- Interface `PileData` from `pile-types.ts`: pile geometry and material properties
(`length`, `diameter`, `EI`, `material`; the optional `wallThickness` and
`sections` fields are not used by any embedded operation). -/
structure PileData where
  length : ℚ
  diameter : ℚ
  EI : ℚ
  material : PileMaterial
deriving DecidableEq, Repr

/-- Interface `SoilLayer` from `pile-types.ts` (the depth-range fields; the P-Y method
and property fields are not consumed by any embedded operation since the
application always sends an empty layer list). -/
structure SoilLayer where
  topDepth : ℚ
  bottomDepth : ℚ
deriving DecidableEq, Repr

/-- Interface `SoilProfile` from `pile-types.ts`. -/
structure SoilProfile where
  layers : List SoilLayer
deriving DecidableEq, Repr

/-- Interface `LoadCase` from `pile-types.ts`. -/
structure LoadCase where
  id : String
  name : String
  lateralLoad : ℚ
  moment : ℚ
  axialLoad : ℚ
  loadDepth : ℚ
deriving DecidableEq, Repr

/-- Type `BoundaryCondition` from `pile-types.ts`. -/
inductive BoundaryCondition where
  | freeHead
  | fixedHead
  | pinnedHead
deriving DecidableEq, Repr

/-- Interface `AnalysisConfig` from `pile-types.ts`: the analysis configuration held in
the application state.  Its `loadSteps` field is a required field of the
interface. -/
structure AnalysisConfig where
  boundaryCondition : BoundaryCondition
  numNodes : ℕ
  maxIterations : ℕ
  convergenceTolerance : ℚ
  loadSteps : ℕ
deriving DecidableEq, Repr

/-- Interface `AnalysisResults` from `pile-types.ts`. -/
structure AnalysisResults where
  converged : Bool
  iterations : ℕ
  depths : List ℚ
  deflections : List ℚ
  moments : List ℚ
  shears : List ℚ
  soilReactions : List ℚ
  maxDeflection : ℚ
  maxMoment : ℚ
  maxShear : ℚ
  deflectionAtLoad : ℚ
deriving DecidableEq, Repr

/-- Interface `SolverOutput` from `pile-types.ts`: the result/error pair returned by
the core's single operation. -/
structure SolverOutput where
  success : Bool
  results : Option AnalysisResults
  error : Option String
deriving DecidableEq, Repr

/-! ## The payload `handleAnalyze` sends to `solve_pile` (from `src/App.tsx`)

`handleAnalyze` builds the object literal `inputData` (App.tsx lines 76-98)
and splices its four parts into the Python call
`solve_pile(pile_data, soil_profile, load_case, config)`.  Each part is a
fresh object literal listing its keys explicitly, so the embedding gives one
structure per part with exactly the keys the code writes; a key that the
corresponding TypeScript interface declares but the literal omits is
represented as an `Option` field set to `none` (a JavaScript object simply
lacks the key). -/

/-- The `pile_data` object literal of `handleAnalyze`:
`{ length, diameter, EI }`. -/
structure PilePayload where
  length : ℚ
  diameter : ℚ
  EI : ℚ
deriving DecidableEq, Repr

/-- The `soil_profile` object literal of `handleAnalyze`: `{ layers: [] }`. -/
structure SoilPayload where
  layers : List SoilLayer
deriving DecidableEq, Repr

/-- The `load_case` object literal of `handleAnalyze`:
`{ lateralLoad, moment, axialLoad }` (no `loadDepth` key). -/
structure LoadPayload where
  lateralLoad : ℚ
  moment : ℚ
  axialLoad : ℚ
deriving DecidableEq, Repr

/-- The `config` object literal of `handleAnalyze`:
`{ boundaryCondition, numNodes, maxIterations, convergenceTolerance }`.
The `loadSteps` key of the `AnalysisConfig` interface is not written by the
literal, so it is `Option ℕ` here. -/
structure ConfigPayload where
  boundaryCondition : BoundaryCondition
  numNodes : ℕ
  maxIterations : ℕ
  convergenceTolerance : ℚ
  loadSteps : Option ℕ
deriving DecidableEq, Repr

/-- The whole `inputData` object literal of `handleAnalyze`. -/
structure InputData where
  pile_data : PilePayload
  soil_profile : SoilPayload
  load_case : LoadPayload
  config : ConfigPayload
deriving DecidableEq, Repr

/-- The `config` part of `inputData` as `handleAnalyze` builds it
(App.tsx lines 90-95): it copies `boundaryCondition`, `numNodes`,
`maxIterations` and `convergenceTolerance` from the state's
`analysisConfig` and writes no `loadSteps` key. -/
def buildConfigPayload (c : AnalysisConfig) : ConfigPayload :=
  { boundaryCondition := c.boundaryCondition
    numNodes := c.numNodes
    maxIterations := c.maxIterations
    convergenceTolerance := c.convergenceTolerance
    loadSteps := none }

/-- The full `inputData` object as `handleAnalyze` builds it
(App.tsx lines 76-98): `pile_data` copies three fields of the pile state,
`soil_profile` is the constant `{ layers: [] }`, `load_case` copies three
fields of the load-case state, and `config` is `buildConfigPayload`. -/
def buildInputData (pileData : PileData) (loadCase : LoadCase)
    (analysisConfig : AnalysisConfig) : InputData :=
  { pile_data :=
      { length := pileData.length
        diameter := pileData.diameter
        EI := pileData.EI }
    soil_profile := { layers := [] }
    load_case :=
      { lateralLoad := loadCase.lateralLoad
        moment := loadCase.moment
        axialLoad := loadCase.axialLoad }
    config := buildConfigPayload analysisConfig }

/-- The default `analysisConfig` React state of `App.tsx`
(`boundaryCondition: 'free-head', numNodes: 50, maxIterations: 50,
convergenceTolerance: 1e-6, loadSteps: 10`). -/
def defaultAnalysisConfig : AnalysisConfig :=
  { boundaryCondition := .freeHead
    numNodes := 50
    maxIterations := 50
    convergenceTolerance := 1 / 1000000
    loadSteps := 10 }

/-- The default `pileData` React state of `App.tsx`. -/
def defaultPileData : PileData :=
  { length := 10, diameter := 3/5, EI := 50000, material := .steel }

/-- The default `loadCase` React state of `App.tsx`. -/
def defaultLoadCase : LoadCase :=
  { id := "1", name := "Load Case 1", lateralLoad := 100, moment := 0,
    axialLoad := 0, loadDepth := 0 }

/-! ## The Pyodide loader cache (from `src/engine/pyodide-loader.ts`)

`pyodide-loader.ts` keeps two module-level variables,
`pyodideInstance : PyodideInterface | null` and
`loadingPromise : Promise<PyodideInterface> | null`.  `loadPyodide` checks
them in order: a non-null instance is returned as is; otherwise a non-null
in-flight promise is returned as is; otherwise a new load is started and
stored in `loadingPromise`.  When the started load succeeds it assigns
`pyodideInstance`; when it fails it resets `loadingPromise` to `null` and
rethrows.  Instances and promises are identified by numeric ids. -/

/-- The pair of module-level variables of `pyodide-loader.ts`. -/
structure LoaderState where
  pyodideInstance : Option ℕ
  loadingPromise : Option ℕ
deriving DecidableEq, Repr

/-- What one call of `loadPyodide` returns: the cached instance, the
in-flight promise, or a newly started load. -/
inductive LoadPyodideResult where
  | existingInstance (inst : ℕ)
  | pendingPromise (promise : ℕ)
  | newLoad (promise : ℕ)
deriving DecidableEq, Repr

/-- One call of `loadPyodide`: the guard cascade of the function body.
`freshPromise` identifies the promise a new load would create. -/
def loadPyodideCall (s : LoaderState) (freshPromise : ℕ) :
    LoaderState × LoadPyodideResult :=
  match s.pyodideInstance with
  | some inst => (s, .existingInstance inst)
  | none =>
    match s.loadingPromise with
    | some p => (s, .pendingPromise p)
    | none => ({ s with loadingPromise := some freshPromise },
               .newLoad freshPromise)

/-- The success continuation of the load started by `loadPyodide`:
`pyodideInstance = pyodide` (note the code does not clear
`loadingPromise` on success; the instance check shadows it). -/
def loadSucceeds (s : LoaderState) (inst : ℕ) : LoaderState :=
  { s with pyodideInstance := some inst }

/-- The failure continuation of the load started by `loadPyodide`:
`loadingPromise = null`, then the error is rethrown. -/
def loadFails (s : LoaderState) : LoaderState :=
  { s with loadingPromise := none }

/-! ## Solution history (from the extended `App.tsx` variant)

`addToHistory` prepends the new entry to the `solutionHistory` state and
keeps `slice(0, 5)`; `clearHistory` sets the state to `[]`. -/

/-- Interface `SolutionHistoryEntry` from `App.tsx`. -/
structure SolutionHistoryEntry where
  id : ℕ
  timestamp : ℕ
  pileData : PileData
  loadCase : LoadCase
  results : AnalysisResults
deriving DecidableEq, Repr

/-- Function `addToHistory` from `App.tsx`: `[entry, ...prev].slice(0, 5)`. -/
def addToHistory (prev : List SolutionHistoryEntry)
    (entry : SolutionHistoryEntry) : List SolutionHistoryEntry :=
  (entry :: prev).take 5

/-- Function `clearHistory` from `App.tsx`: `setSolutionHistory([])`. -/
def clearHistory (_prev : List SolutionHistoryEntry) :
    List SolutionHistoryEntry :=
  []

/-- The history invariant: at most 5 entries, newest first (timestamps
non-increasing along the list). -/
def historyInvariant (h : List SolutionHistoryEntry) : Prop :=
  h.length ≤ 5 ∧ h.Pairwise (fun a b => b.timestamp ≤ a.timestamp)

/-! ## The numerical core (modelled from the spec)

The solver `src/engine/pile-solver.py` is fetched at runtime and is not in
the repository sources, so the definitions below are modelled from the
specification (sections 3, 4.2-4.4, 6, 7): finite-difference mesh, the
beam-column stencil residual, a relaxation update standing in for the
banded tangent solve, the three-criterion convergence test, Newton
iteration bounded by `maxIterations`, equal-fraction load stepping seeded
by the previous step's solution, result extraction, and up-front input
validation surfaced through the `SolverOutput` result/error pair.
Simplifications relative to a full implementation, all irrelevant to the
claims settled here: the soil term is the custom/linear variant with a
fixed subgrade modulus, ghost nodes beyond the mesh are taken as zero, the
head boundary-condition variants are not distinguished, and
under-relaxation/adaptive step halving are folded into the single
`maxIterations` budget per load step. -/

/-- Modelled from the spec: node value of a per-node vector, with the ghost
values beyond the tip end taken as zero. -/
def nodeVal (y : List ℚ) (i : ℕ) : ℚ :=
  y.getD i 0

/-- Modelled from the spec: the absolute value as the solver computes it. -/
def qabs (x : ℚ) : ℚ :=
  if x < 0 then -x else x

/-- Modelled from the spec: the three-point second-derivative stencil
`y[i-1] - 2 y[i] + y[i+1]` at node `i`, ghost values beyond the head taken
as zero. -/
def stencil2 (y : List ℚ) (i : ℕ) : ℚ :=
  (if i = 0 then 0 else nodeVal y (i - 1)) - 2 * nodeVal y i
    + nodeVal y (i + 1)

/-- Modelled from the spec: the five-point fourth-derivative stencil
`y[i-2] - 4 y[i-1] + 6 y[i] - 4 y[i+1] + y[i+2]` at node `i`, ghost values
beyond the head taken as zero. -/
def stencil4 (y : List ℚ) (i : ℕ) : ℚ :=
  (if i ≤ 1 then 0 else nodeVal y (i - 2))
    - 4 * (if i = 0 then 0 else nodeVal y (i - 1))
    + 6 * nodeVal y i - 4 * nodeVal y (i + 1) + nodeVal y (i + 2)

/-- Modelled from the spec: the L1 norm used for the convergence ratios. -/
def l1norm (v : List ℚ) : ℚ :=
  (v.map qabs).sum

/-- Modelled from the spec: dot product for the energy criterion. -/
def dotp (v w : List ℚ) : ℚ :=
  (List.zipWith (fun a b => a * b) v w).sum

/-- Modelled from the spec: the unbalanced-force residual at node `i`,
`F_i - (EI/h⁴ · stencil4 + P/h² · stencil2 + k · y_i)` with `a = EI/h⁴`,
`b = P/h²` and linear soil stiffness `k`. -/
def residualAt (a b k : ℚ) (F : ℕ → ℚ) (y : List ℚ) (i : ℕ) : ℚ :=
  F i - (a * stencil4 y i + b * stencil2 y i + k * nodeVal y i)

/-- Modelled from the spec: the diagonal coefficient of the assembled
tangent operator (guarded against zero so the relaxation update is total). -/
def diagCoeff (a b k : ℚ) : ℚ :=
  let d := 6 * a - 2 * b + k
  if d = 0 then 1 else d

/-- Modelled from the spec: one deflection update of the Newton iteration,
a diagonally scaled residual correction standing in for the banded tangent
solve.  Always returns a vector of length `N`. -/
def jacobiStep (a b k : ℚ) (F : ℕ → ℚ) (N : ℕ) (y : List ℚ) : List ℚ :=
  (List.range N).map fun i =>
    nodeVal y i + residualAt a b k F y i / diagCoeff a b k

/-- Modelled from the spec: a guarded ratio test `num/den < tol`, falling
back to the absolute test when the denominator vanishes. -/
def ratioBelow (num den tol : ℚ) : Bool :=
  if den = 0 then decide (num < tol) else decide (num / den < tol)

/-- Modelled from the spec: the three convergence criteria, all required
simultaneously — residual-norm ratio, displacement-increment ratio, and
energy ratio against `tol²`. -/
def convergedCheck (tol : ℚ) (R F incr y : List ℚ) : Bool :=
  ratioBelow (l1norm R) (l1norm F) tol
    && ratioBelow (l1norm incr) (l1norm y) tol
    && ratioBelow (qabs (dotp incr R)) (qabs (dotp y F)) (tol * tol)

/-- Modelled from the spec: the Newton iteration of one load step.  Each
round evaluates the residual at the current estimate, applies one update,
and tests the three convergence criteria; the fuel is the remaining
iteration budget.  Returns (converged?, iterations used, last-attempted
deflection vector). -/
def newtonLoop (a b k tol : ℚ) (F : ℕ → ℚ) (N : ℕ) :
    ℕ → List ℚ → Bool × ℕ × List ℚ
  | 0, y => (false, 0, y)
  | fuel + 1, y =>
    let Fv := (List.range N).map F
    let R := (List.range N).map (fun i => residualAt a b k F y i)
    let y' := jacobiStep a b k F N y
    let incr := List.zipWith (fun u v => u - v) y' y
    if convergedCheck tol R Fv incr y' then (true, 1, y')
    else
      let rest := newtonLoop a b k tol F N fuel y'
      (rest.1, rest.2.1 + 1, rest.2.2)

/-- Modelled from the spec: the load-stepping outer loop.  The target load
is divided into `total` equal fractions; step `s` applies the scaled load
`s/total · F` and seeds the Newton iteration with the previous step's
converged deflection.  A step that exhausts its budget ends the solve
unconverged with the last-attempted values; iteration counts accumulate. -/
def loadStepsGo (a b k tol : ℚ) (Ftot : ℕ → ℚ) (N maxIter total : ℕ) :
    ℕ → List ℚ → Bool × ℕ × List ℚ
  | 0, y => (true, 0, y)
  | rem + 1, y =>
    let stepIdx := total - rem
    let frac : ℚ := (stepIdx : ℚ) / (total : ℚ)
    let F := fun i => frac * Ftot i
    let r := newtonLoop a b k tol F N maxIter y
    if r.1 then
      let rest := loadStepsGo a b k tol Ftot N maxIter total rem r.2.2
      (rest.1, r.2.1 + rest.2.1, rest.2.2)
    else (false, r.2.1, r.2.2)

/-- Modelled from the spec: uniform mesh spacing `h = L/(N-1)`. -/
def meshSpacing (pile : PileData) (N : ℕ) : ℚ :=
  pile.length / ((N : ℚ) - 1)

/-- Modelled from the spec: the node receiving the applied lateral load —
the node at the load depth, clamped into the mesh. -/
def loadNodeIndex (lc : LoadCase) (h : ℚ) (N : ℕ) : ℕ :=
  min (N - 1) (Int.toNat ⌊lc.loadDepth / h⌋)

/-- Modelled from the spec: the uniform subgrade modulus of the built-in
custom/linear soil variant (the §8 validation value scaled by the width
the soil reaction formulas act on). -/
def subgradeModulus (pile : PileData) : ℚ :=
  5000 * pile.diameter

/-- Modelled from the spec: the whole nonlinear solve — load stepping
around Newton iteration — from the zero initial deflection.  Returns
(converged?, cumulative iterations, final deflection vector). -/
def finalState (pile : PileData) (lc : LoadCase) (cfg : AnalysisConfig) :
    Bool × ℕ × List ℚ :=
  let N := cfg.numNodes
  let h := meshSpacing pile N
  let a := pile.EI / h ^ 4
  let b := lc.axialLoad / h ^ 2
  let k := subgradeModulus pile
  let ln := loadNodeIndex lc h N
  let Ftot : ℕ → ℚ := fun i => if i = ln then lc.lateralLoad / h else 0
  loadStepsGo a b k cfg.convergenceTolerance Ftot N cfg.maxIterations
    cfg.loadSteps cfg.loadSteps (List.replicate N 0)

/-- Modelled from the spec: the node depths `i · h` of the mesh. -/
def depthsOf (h : ℚ) (N : ℕ) : List ℚ :=
  (List.range N).map fun i : ℕ => (i : ℚ) * h

/-- Modelled from the spec: moments `M_i = -EI · stencil2/h²` from the
final deflection field. -/
def momentsOf (EI h : ℚ) (N : ℕ) (y : List ℚ) : List ℚ :=
  (List.range N).map fun i => -EI * stencil2 y i / h ^ 2

/-- Modelled from the spec: shears via a centered difference of moment. -/
def shearsOf (h : ℚ) (N : ℕ) (M : List ℚ) : List ℚ :=
  (List.range N).map fun i =>
    (nodeVal M (i + 1) - (if i = 0 then 0 else nodeVal M (i - 1))) / (2 * h)

/-- Modelled from the spec: soil reactions by re-evaluating the soil model
at the final deflections. -/
def reactionsOf (k : ℚ) (N : ℕ) (y : List ℚ) : List ℚ :=
  (List.range N).map fun i => k * nodeVal y i

/-- Modelled from the spec: index of the maximum-magnitude entry. -/
def argmaxAbs (v : List ℚ) : ℕ :=
  (List.range v.length).foldl
    (fun best i => if qabs (nodeVal v best) < qabs (nodeVal v i) then i
      else best) 0

/-- Modelled from the spec: the literal (signed) maximum-magnitude value of
a per-node sequence. -/
def maxAbsVal (v : List ℚ) : ℚ :=
  nodeVal v (argmaxAbs v)

/-- Modelled from the spec: the layer-coverage check — layers ordered by
depth, contiguous, covering `[0, L]` without gaps or overlaps. -/
def layersCover : ℚ → List SoilLayer → ℚ → Bool
  | top, [], L => decide (top = L)
  | top, l :: ls, L =>
    decide (l.topDepth = top) && decide (top < l.bottomDepth)
      && layersCover l.bottomDepth ls L

/-- Modelled from the spec: profile well-formedness; the empty layer list
(what the application always sends) selects the built-in linear soil. -/
def soilProfileContiguous (soil : SoilProfile) (L : ℚ) : Bool :=
  soil.layers.isEmpty || layersCover 0 soil.layers L

/-- Modelled from the spec: up-front input validation (§7a) — non-positive
length/diameter/EI, non-positive tolerance, empty iteration or load-step
budgets, a mesh too coarse for the five-point stencil, an out-of-range
load depth, or a gapped/overlapping soil profile — each rejected with a
descriptive message before any assembly. -/
def validateInput (pile : PileData) (soil : SoilProfile) (lc : LoadCase)
    (cfg : AnalysisConfig) : Option String :=
  if pile.length ≤ 0 then some "pile length must be positive"
  else if pile.diameter ≤ 0 then some "pile diameter must be positive"
  else if pile.EI ≤ 0 then some "flexural rigidity EI must be positive"
  else if cfg.convergenceTolerance ≤ 0 then
    some "convergence tolerance must be positive"
  else if cfg.maxIterations < 1 then some "maxIterations must be at least 1"
  else if cfg.loadSteps < 1 then some "loadSteps must be at least 1"
  else if cfg.numNodes < 5 then some "numNodes must be at least 5"
  else if lc.loadDepth < 0 ∨ pile.length < lc.loadDepth then
    some "load depth out of range"
  else if soilProfileContiguous soil pile.length = false then
    some "soil profile has gaps or overlaps"
  else none

/-- Modelled from the spec: result extraction (§4.4) applied to the final
(converged or last-attempted) state of a solve that passed validation. -/
def solveCore (pile : PileData) (lc : LoadCase) (cfg : AnalysisConfig) :
    AnalysisResults :=
  let N := cfg.numNodes
  let h := meshSpacing pile N
  let k := subgradeModulus pile
  let fs := finalState pile lc cfg
  let y := fs.2.2
  let M := momentsOf pile.EI h N y
  let V := shearsOf h N M
  { converged := fs.1
    iterations := fs.2.1
    depths := depthsOf h N
    deflections := y
    moments := M
    shears := V
    soilReactions := reactionsOf k N y
    maxDeflection := maxAbsVal y
    maxMoment := maxAbsVal M
    maxShear := maxAbsVal V
    deflectionAtLoad := nodeVal y (loadNodeIndex lc h N) }

/-- Modelled from the spec: the core's single operation
`solve(pile, soil, loadCase, config) → { success, results?, error? }`.
Validation failure is fatal (no result object); a solve that runs returns
`success: true` with a results object whether or not it converged.  As a
total Lean function it can signal failure only through this pair. -/
def solve_pile (pile : PileData) (soil : SoilProfile) (lc : LoadCase)
    (cfg : AnalysisConfig) : SolverOutput :=
  match validateInput pile soil lc cfg with
  | some e => { success := false, results := none, error := some e }
  | none =>
    { success := true, results := some (solveCore pile lc cfg), error := none }

/-! ## The host runtime around the solver (from `App.tsx` and
`pyodide-loader.ts`, solver side modelled from the spec)

`handleAnalyze` re-runs the solver script in the shared Pyodide runtime and
then evaluates `solve_pile` on the payload it built; the runtime state that
persists between analyses is modelled explicitly so that independence of
the output from it is a statable property. -/

/-- The Pyodide interpreter state that persists across analyses: whether
the solver script has been run, and how many analyses have run. -/
structure PyRuntimeState where
  solverLoaded : Bool
  runCount : ℕ
deriving DecidableEq, Repr

/-- Running the solver script (the `runPython(solverCode)` step of
`handleAnalyze`): (re)defines the solver in the interpreter. -/
def runSolverScript (s : PyRuntimeState) : PyRuntimeState :=
  { solverLoaded := true, runCount := s.runCount + 1 }

/-- Modelled from the spec: how the solver reads the `pile_data` payload
(the material tag is informational only and absent from the payload). -/
def payloadPile (p : PilePayload) : PileData :=
  { length := p.length, diameter := p.diameter, EI := p.EI,
    material := .steel }

/-- Modelled from the spec: how the solver reads the `load_case` payload;
the payload carries no `loadDepth` key, and the load is applied at the
head (depth 0) by default. -/
def payloadLoadCase (p : LoadPayload) : LoadCase :=
  { id := "", name := "", lateralLoad := p.lateralLoad, moment := p.moment,
    axialLoad := p.axialLoad, loadDepth := 0 }

/-- Modelled from the spec: how the solver reads the `config` payload; a
missing `loadSteps` key defaults to a single load step. -/
def payloadConfig (c : ConfigPayload) : AnalysisConfig :=
  { boundaryCondition := c.boundaryCondition, numNodes := c.numNodes,
    maxIterations := c.maxIterations,
    convergenceTolerance := c.convergenceTolerance,
    loadSteps := c.loadSteps.getD 1 }

/-- One full analysis as `handleAnalyze` performs it: run the solver
script in the shared runtime, build the payload from the React state, and
evaluate `solve_pile` on it.  Returns the mutated runtime state and the
solver output. -/
def handleAnalyzeCompute (s : PyRuntimeState) (pileData : PileData)
    (loadCase : LoadCase) (cfg : AnalysisConfig) :
    PyRuntimeState × SolverOutput :=
  let s1 := runSolverScript s
  let inp := buildInputData pileData loadCase cfg
  (s1,
   solve_pile (payloadPile inp.pile_data) { layers := inp.soil_profile.layers }
     (payloadLoadCase inp.load_case) (payloadConfig inp.config))

/-! ## P-Y constitutive models (modelled from the spec, §4.1)

The nonlinear P-Y variants live in the runtime-loaded `pile-solver.py` and
are modelled here from the specification's closed forms over `ℝ`.  Each
variant takes its layer parameters as arguments (the ultimate-resistance
and characteristic-deflection expressions in the layer properties are
resolved by the caller); each is extended to negative deflection as an odd
function, reaction opposing deflection. -/

/-- Modelled from the spec: Matlock soft clay reaction for `y ≥ 0` —
`p = 0.5 · p_u · (y/y₅₀)^(1/3)` below `8·y₅₀`, clamped to `p_u` beyond. -/
noncomputable def matlockPpos (pu y50 y : ℝ) : ℝ :=
  if y < 8 * y50 then 0.5 * pu * (y / y50) ^ ((1 : ℝ) / 3) else pu

/-- Modelled from the spec: Matlock soft clay reaction, odd in `y`. -/
noncomputable def matlockP (pu y50 y : ℝ) : ℝ :=
  if y < 0 then -matlockPpos pu y50 (-y) else matlockPpos pu y50 y

/-- Modelled from the spec: API sand reaction
`p = A · p_u · tanh(k·z/(A·p_u) · y)` (odd in `y` since `tanh` is). -/
noncomputable def apiSandP (A pu k z y : ℝ) : ℝ :=
  A * pu * Real.tanh (k * z / (A * pu) * y)

/-- Modelled from the spec: Reese stiff clay reaction for `y ≥ 0` — the
five-segment curve of §4.1/§9: an initial linear branch with site
stiffness `ks·z` capped by a square-root rising branch up to the critical
deflection multiple `A_s·y_c`, a power-law softening correction up to the
peak region at `6·A_s·y_c`, a linear softening branch to `18·A_s·y_c`,
and a residual plateau beyond. -/
noncomputable def reeseStiffClayPpos (z pc yc ks As y : ℝ) : ℝ :=
  if y ≤ As * yc then
    min (ks * z * y) (0.5 * pc * Real.sqrt (y / yc))
  else if y ≤ 6 * As * yc then
    0.5 * pc * Real.sqrt (y / yc)
      - 0.055 * pc * ((y - As * yc) / (As * yc)) ^ ((5 : ℝ) / 4)
  else if y ≤ 18 * As * yc then
    0.5 * pc * Real.sqrt (6 * As) - 0.411 * pc
      - 0.0625 / yc * pc * (y - 6 * As * yc)
  else
    0.5 * pc * Real.sqrt (6 * As) - 0.411 * pc - 0.75 * pc * As

/-- Modelled from the spec: Reese stiff clay reaction, odd in `y`. -/
noncomputable def reeseStiffClayP (z pc yc ks As y : ℝ) : ℝ :=
  if y < 0 then -reeseStiffClayPpos z pc yc ks As (-y)
  else reeseStiffClayPpos z pc yc ks As y

/-- Modelled from the spec: the custom/linear variant `p = k₀ · y`. -/
def linearSoilP (k0 y : ℚ) : ℚ :=
  k0 * y

/-! ## Concrete inputs used to instantiate the theorems below -/

/-- A small valid pile: length 4 m, diameter 1 m, EI 1 kN·m². -/
def pile0 : PileData :=
  ⟨4, 1, 1, .steel⟩

/-- The empty soil profile (what the application always sends). -/
def soil0 : SoilProfile :=
  ⟨[]⟩

/-- A head load case: 100 kN lateral at depth 0, no moment, no axial load. -/
def lc0 : LoadCase :=
  ⟨"1", "Load Case 1", 100, 0, 0, 0⟩

/-- A configuration with a loose tolerance, under which the model solve
converges on `pile0`/`lc0` within its single allowed iteration. -/
def cfgA : AnalysisConfig :=
  ⟨.freeHead, 5, 1, 1000000, 1⟩

/-- A configuration with a tight tolerance, under which the model solve
exhausts its single allowed iteration on `pile0`/`lc0` unconverged. -/
def cfgB : AnalysisConfig :=
  ⟨.freeHead, 5, 1, 1 / 1000000000, 1⟩

/-- A minimal results record for the history fixtures. -/
def res0 : AnalysisResults :=
  ⟨true, 1, [0], [0], [0], [0], [0], 0, 0, 0, 0⟩

/-- A history entry with timestamp 5. -/
def entry0 : SolutionHistoryEntry :=
  ⟨1, 5, pile0, lc0, res0⟩

/-- A history entry with timestamp 9, newer than `entry0`. -/
def entry1 : SolutionHistoryEntry :=
  ⟨2, 9, pile0, lc0, res0⟩

/-! ## Structural lemmas about the solver model -/

theorem jacobiStep_length (a b k : ℚ) (F : ℕ → ℚ) (N : ℕ) (y : List ℚ) :
    (jacobiStep a b k F N y).length = N := by
  simp [jacobiStep]

theorem newtonLoop_length (a b k tol : ℚ) (F : ℕ → ℚ) (N : ℕ) :
    ∀ fuel y, ((newtonLoop a b k tol F N fuel y).2.2).length = y.length ∨
      ((newtonLoop a b k tol F N fuel y).2.2).length = N := by
  intro fuel
  induction fuel with
  | zero => intro y; exact Or.inl rfl
  | succ n ih =>
    intro y
    simp only [newtonLoop]
    split
    · exact Or.inr (jacobiStep_length ..)
    · rcases ih (jacobiStep a b k F N y) with h | h
      · exact Or.inr (h.trans (jacobiStep_length ..))
      · exact Or.inr h

theorem loadStepsGo_length (a b k tol : ℚ) (Ftot : ℕ → ℚ)
    (N maxIter total : ℕ) :
    ∀ rem y, ((loadStepsGo a b k tol Ftot N maxIter total rem y).2.2).length
        = y.length ∨
      ((loadStepsGo a b k tol Ftot N maxIter total rem y).2.2).length = N := by
  intro rem
  induction rem with
  | zero => intro y; exact Or.inl rfl
  | succ n ih =>
    intro y
    simp only [loadStepsGo]
    split
    · rcases ih ((newtonLoop a b k tol
          (fun i => ((total - n : ℕ) : ℚ) / (total : ℚ) * Ftot i)
          N maxIter y).2.2) with h | h
      · rcases newtonLoop_length a b k tol
            (fun i => ((total - n : ℕ) : ℚ) / (total : ℚ) * Ftot i)
            N maxIter y with h2 | h2
        · exact Or.inl (h.trans h2)
        · exact Or.inr (h.trans h2)
      · exact Or.inr h
    · exact newtonLoop_length ..

theorem finalState_length (pile : PileData) (lc : LoadCase)
    (cfg : AnalysisConfig) :
    ((finalState pile lc cfg).2.2).length = cfg.numNodes := by
  unfold finalState
  rcases loadStepsGo_length (pile.EI / meshSpacing pile cfg.numNodes ^ 4)
      (lc.axialLoad / meshSpacing pile cfg.numNodes ^ 2)
      (subgradeModulus pile) cfg.convergenceTolerance
      (fun i => if i = loadNodeIndex lc (meshSpacing pile cfg.numNodes)
          cfg.numNodes
        then lc.lateralLoad / meshSpacing pile cfg.numNodes else 0)
      cfg.numNodes cfg.maxIterations cfg.loadSteps cfg.loadSteps
      (List.replicate cfg.numNodes 0) with h | h
  · simpa using h
  · exact h

/-! ## Claim theorems -/

/-- Claim C1: for every invocation, `solve_pile` returns a pair in which a
successful completion carries a results object and no error, and a
validation/configuration failure carries a descriptive error string and no
results; as a total function, no failure mode escapes this result/error
pair. -/
theorem solve_result_error_pairing (pile : PileData) (soil : SoilProfile)
    (lc : LoadCase) (cfg : AnalysisConfig) :
    ((solve_pile pile soil lc cfg).success = true ∧
      ((solve_pile pile soil lc cfg).results).isSome = true ∧
      (solve_pile pile soil lc cfg).error = none) ∨
    ((solve_pile pile soil lc cfg).success = false ∧
      (solve_pile pile soil lc cfg).results = none ∧
      ((solve_pile pile soil lc cfg).error).isSome = true) := by
  unfold solve_pile
  cases validateInput pile soil lc cfg with
  | none => left; simp
  | some e => right; simp

/-- Claim C4: for every completed solve (converged or not), the five
per-node sequences of the returned results — depths, deflections, moments,
shears, soil reactions — all have length equal to the configured node
count. -/
theorem solve_results_equal_length (pile : PileData) (soil : SoilProfile)
    (lc : LoadCase) (cfg : AnalysisConfig) (r : AnalysisResults)
    (h : (solve_pile pile soil lc cfg).results = some r) :
    r.depths.length = cfg.numNodes ∧ r.deflections.length = cfg.numNodes ∧
    r.moments.length = cfg.numNodes ∧ r.shears.length = cfg.numNodes ∧
    r.soilReactions.length = cfg.numNodes := by
  unfold solve_pile at h
  cases hv : validateInput pile soil lc cfg with
  | some e => rw [hv] at h; simp at h
  | none =>
    rw [hv] at h
    simp only [Option.some.injEq] at h
    subst h
    refine ⟨by simp only [solveCore, depthsOf, List.length_map,
        List.length_range], ?_,
      by simp only [solveCore, momentsOf, List.length_map, List.length_range],
      by simp only [solveCore, shearsOf, List.length_map, List.length_range],
      by simp only [solveCore, reactionsOf, List.length_map,
        List.length_range]⟩
    simpa only [solveCore] using finalState_length pile lc cfg

/-- Claim C2: a solve whose Newton/load-stepping process exhausts its
retry budget without converging still returns `success: true` with a
results object whose `converged` flag is false and whose per-node
deflections are the last-attempted values; the unconverged state is not a
fatal error and is not dropped. -/
theorem solve_unconverged_best_effort (pile : PileData) (soil : SoilProfile)
    (lc : LoadCase) (cfg : AnalysisConfig)
    (hv : validateInput pile soil lc cfg = none)
    (hnc : (finalState pile lc cfg).1 = false) :
    (solve_pile pile soil lc cfg).success = true ∧
    (solve_pile pile soil lc cfg).results = some (solveCore pile lc cfg) ∧
    (solve_pile pile soil lc cfg).error = none ∧
    (solveCore pile lc cfg).converged = false ∧
    (solveCore pile lc cfg).deflections = (finalState pile lc cfg).2.2 := by
  refine ⟨?_, ?_, ?_, ?_, rfl⟩ <;> simp [solve_pile, hv, solveCore, hnc]

/-- Witness for C2: the best-effort behaviour evaluated at a concrete
valid input whose tight tolerance exhausts the iteration budget. -/
theorem solve_unconverged_best_effort_witness :
    (solve_pile pile0 soil0 lc0 cfgB).success = true ∧
    (solve_pile pile0 soil0 lc0 cfgB).results
      = some (solveCore pile0 lc0 cfgB) ∧
    (solve_pile pile0 soil0 lc0 cfgB).error = none ∧
    (solveCore pile0 lc0 cfgB).converged = false ∧
    (solveCore pile0 lc0 cfgB).deflections
      = (finalState pile0 lc0 cfgB).2.2 :=
  solve_unconverged_best_effort pile0 soil0 lc0 cfgB
    (by norm_num [validateInput, pile0, soil0, lc0, cfgB,
      soilProfileContiguous])
    (by norm_num [finalState, loadStepsGo, newtonLoop, jacobiStep,
      convergedCheck, ratioBelow, residualAt, stencil4, stencil2, nodeVal,
      qabs, diagCoeff, l1norm, dotp, meshSpacing, loadNodeIndex,
      subgradeModulus, pile0, lc0, cfgB, List.range_succ,
      List.replicate_succ])

/-- Claim C3 (code evaluated at the failing input): the application's
`AnalysisConfig` state carries `loadSteps = 10`, yet the config object
`handleAnalyze` passes to `solve_pile` has no `loadSteps` key — for the
default state and for every state. -/
theorem handleAnalyze_config_omits_loadSteps :
    defaultAnalysisConfig.loadSteps = 10 ∧
    (buildInputData defaultPileData defaultLoadCase
        defaultAnalysisConfig).config.loadSteps = none ∧
    ∀ c : AnalysisConfig, (buildConfigPayload c).loadSteps = none :=
  ⟨rfl, rfl, fun _ => rfl⟩

/-- Claim C6: the analysis is deterministic — two invocations with
identical inputs on different runtime states yield identical solver
outputs, and re-running on the state mutated by a first run also yields
the identical output; no hidden runtime state influences the result. -/
theorem solve_deterministic (s t : PyRuntimeState) (pd : PileData)
    (lc : LoadCase) (cfg : AnalysisConfig) :
    (handleAnalyzeCompute s pd lc cfg).2
      = (handleAnalyzeCompute t pd lc cfg).2 ∧
    (handleAnalyzeCompute (handleAnalyzeCompute s pd lc cfg).1 pd lc cfg).2
      = (handleAnalyzeCompute s pd lc cfg).2 :=
  ⟨rfl, rfl⟩

/-- Claim C7: for a solve that passed validation, converged, and applies
its lateral load at depth 0, the reported `deflectionAtLoad` equals the
node-0 (head) entry of the `deflections` sequence. -/
theorem deflectionAtLoad_is_head (pile : PileData) (soil : SoilProfile)
    (lc : LoadCase) (cfg : AnalysisConfig)
    (hv : validateInput pile soil lc cfg = none)
    (hd : lc.loadDepth = 0)
    (_hconv : (solveCore pile lc cfg).converged = true) :
    (solve_pile pile soil lc cfg).results = some (solveCore pile lc cfg) ∧
    (solveCore pile lc cfg).deflectionAtLoad
      = (solveCore pile lc cfg).deflections.getD 0 0 := by
  have hln : ∀ h N, loadNodeIndex lc h N = 0 := by
    intro h N
    simp [loadNodeIndex, hd]
  constructor
  · simp [solve_pile, hv]
  · simp only [solveCore]
    rw [hln]
    rfl

/-- Witness for C7: the head-deflection property evaluated at a concrete
converging input loaded at the head. -/
theorem deflectionAtLoad_is_head_witness :
    (solve_pile pile0 soil0 lc0 cfgA).results
      = some (solveCore pile0 lc0 cfgA) ∧
    (solveCore pile0 lc0 cfgA).deflectionAtLoad
      = (solveCore pile0 lc0 cfgA).deflections.getD 0 0 :=
  deflectionAtLoad_is_head pile0 soil0 lc0 cfgA
    (by norm_num [validateInput, pile0, soil0, lc0, cfgA,
      soilProfileContiguous])
    rfl
    (by norm_num [solveCore, finalState, loadStepsGo, newtonLoop,
      jacobiStep, convergedCheck, ratioBelow, residualAt, stencil4,
      stencil2, nodeVal, qabs, diagCoeff, l1norm, dotp, meshSpacing,
      loadNodeIndex, subgradeModulus, pile0, lc0, cfgA, List.range_succ,
      List.replicate_succ])

/-- Claim C8: every analysis the application submits passes a soil profile
whose layer list is empty, regardless of the pile, load, or configuration
state. -/
theorem handleAnalyze_soil_always_empty (pd : PileData) (lc : LoadCase)
    (cfg : AnalysisConfig) :
    (buildInputData pd lc cfg).soil_profile.layers = [] :=
  rfl

/-- Claim C9: `loadPyodide` creates at most one runtime — after a
successful load every call returns the cached instance and leaves the
state unchanged; while a load is in flight every call returns the pending
promise and leaves the state unchanged; and only after a failed load
(instance absent, promise cleared) does a call start a fresh attempt. -/
theorem loadPyodide_caching (s : LoaderState) (p inst fresh : ℕ)
    (hinst : s.pyodideInstance = none) (hpend : s.loadingPromise = some p) :
    loadPyodideCall (loadSucceeds s inst) fresh
      = (loadSucceeds s inst, .existingInstance inst) ∧
    loadPyodideCall s fresh = (s, .pendingPromise p) ∧
    loadPyodideCall (loadFails s) fresh
      = (⟨none, some fresh⟩, .newLoad fresh) := by
  obtain ⟨i0, l0⟩ := s
  simp only at hinst hpend
  subst hinst
  subst hpend
  exact ⟨rfl, rfl, rfl⟩

/-- Witness for C9: the caching behaviour evaluated at a concrete state
with a pending promise. -/
theorem loadPyodide_caching_witness :
    loadPyodideCall (loadSucceeds ⟨none, some 7⟩ 3) 9
      = (loadSucceeds ⟨none, some 7⟩ 3, .existingInstance 3) ∧
    loadPyodideCall ⟨none, some 7⟩ 9
      = ((⟨none, some 7⟩ : LoaderState), .pendingPromise 7) ∧
    loadPyodideCall (loadFails ⟨none, some 7⟩) 9
      = (⟨none, some 9⟩, .newLoad 9) :=
  loadPyodide_caching ⟨none, some 7⟩ 7 3 9 rfl rfl

/-- Claim C10: the solution-history invariant (at most 5 entries, newest
first) is preserved by both mutating operations — `addToHistory` prepends
the new entry and truncates to 5, and `clearHistory` empties the list. -/
theorem solution_history_ops (h : List SolutionHistoryEntry)
    (e : SolutionHistoryEntry) (hinv : historyInvariant h)
    (hnew : ∀ x ∈ h, x.timestamp ≤ e.timestamp) :
    historyInvariant (addToHistory h e) ∧
    addToHistory h e = e :: h.take 4 ∧
    (addToHistory h e).head? = some e ∧
    clearHistory h = [] ∧
    historyInvariant (clearHistory h) := by
  refine ⟨⟨?_, ?_⟩, rfl, rfl, rfl, by simp [historyInvariant, clearHistory]⟩
  · simp only [addToHistory, List.length_take, List.length_cons]
    omega
  · exact List.Pairwise.take (List.pairwise_cons.mpr ⟨hnew, hinv.2⟩)

/-- Witness for C10: the history operations evaluated on a concrete
one-entry history and a newer entry. -/
theorem solution_history_ops_witness :
    historyInvariant (addToHistory [entry0] entry1) ∧
    addToHistory [entry0] entry1 = entry1 :: [entry0].take 4 ∧
    (addToHistory [entry0] entry1).head? = some entry1 ∧
    clearHistory [entry0] = [] ∧
    historyInvariant (clearHistory [entry0]) :=
  solution_history_ops [entry0] entry1 ⟨by simp, by simp⟩
    (by simp [entry0, entry1])

/-! ## P-Y curve analysis (for claim C5) -/

/-- The hyperbolic tangent is strictly monotone on `ℝ`. -/
theorem real_tanh_strictMono : StrictMono Real.tanh := by
  intro a b hab
  rw [Real.tanh_eq_sinh_div_cosh, Real.tanh_eq_sinh_div_cosh,
    div_lt_div_iff₀ (Real.cosh_pos a) (Real.cosh_pos b)]
  have h : Real.sinh (a - b) < 0 := by
    have h0 : Real.sinh (a - b) < Real.sinh 0 :=
      Real.sinh_strictMono (by linarith)
    simpa using h0
  rw [Real.sinh_sub] at h
  linarith [mul_comm (Real.cosh a) (Real.sinh b)]

/-- The cube root of 8 as a real power. -/
theorem eight_rpow_third : (8 : ℝ) ^ ((1 : ℝ) / 3) = 2 := by
  have h8 : (8 : ℝ) = (2 : ℝ) ^ ((3 : ℕ) : ℝ) := by
    rw [Real.rpow_natCast]
    norm_num
  rw [h8, ← Real.rpow_mul (by norm_num : (0 : ℝ) ≤ 2)]
  rw [show ((3 : ℕ) : ℝ) * (1 / 3) = 1 by push_cast; ring, Real.rpow_one]

/-- On the rising branch the Matlock reaction stays below the ultimate
resistance. -/
theorem matlock_rising_le (pu y50 y : ℝ) (hpu : 0 < pu) (hy50 : 0 < y50)
    (hy : 0 ≤ y) (hlt : y < 8 * y50) :
    0.5 * pu * (y / y50) ^ ((1 : ℝ) / 3) ≤ pu := by
  have hdiv : y / y50 ≤ 8 := by
    rw [div_le_iff₀ hy50]
    linarith
  have h1 : (y / y50) ^ ((1 : ℝ) / 3) ≤ (8 : ℝ) ^ ((1 : ℝ) / 3) :=
    Real.rpow_le_rpow (div_nonneg hy hy50.le) hdiv (by norm_num)
  rw [eight_rpow_third] at h1
  nlinarith

/-- The Matlock reaction is monotone non-decreasing on `y ≥ 0`. -/
theorem matlockPpos_monotone (pu y50 y1 y2 : ℝ) (hpu : 0 < pu)
    (hy50 : 0 < y50) (hy1 : 0 ≤ y1) (h12 : y1 ≤ y2) :
    matlockPpos pu y50 y1 ≤ matlockPpos pu y50 y2 := by
  unfold matlockPpos
  by_cases h1 : y1 < 8 * y50
  · by_cases h2 : y2 < 8 * y50
    · rw [if_pos h1, if_pos h2]
      have hr : (y1 / y50) ^ ((1 : ℝ) / 3) ≤ (y2 / y50) ^ ((1 : ℝ) / 3) :=
        Real.rpow_le_rpow (div_nonneg hy1 hy50.le)
          ((div_le_div_iff_of_pos_right hy50).mpr h12) (by norm_num)
      nlinarith
    · rw [if_pos h1, if_neg h2]
      exact matlock_rising_le pu y50 y1 hpu hy50 hy1 h1
  · by_cases h2 : y2 < 8 * y50
    · exact absurd (lt_of_le_of_lt h12 h2) h1
    · rw [if_neg h1, if_neg h2]

/-- The Matlock reaction vanishes at zero deflection. -/
theorem matlockPpos_zero (pu y50 : ℝ) (hy50 : 0 < y50) :
    matlockPpos pu y50 0 = 0 := by
  unfold matlockPpos
  rw [if_pos (by linarith : (0 : ℝ) < 8 * y50), zero_div,
    Real.zero_rpow (by norm_num : (1 : ℝ) / 3 ≠ 0), mul_zero]

/-- On `y ≥ 0` the odd extension agrees with the one-sided Matlock curve. -/
theorem matlockP_of_nonneg (pu y50 y : ℝ) (hy : 0 ≤ y) :
    matlockP pu y50 y = matlockPpos pu y50 y :=
  if_neg (not_lt.mpr hy)

/-- The API sand reaction vanishes at zero deflection. -/
theorem apiSandP_zero (A pu k z : ℝ) : apiSandP A pu k z 0 = 0 := by
  simp [apiSandP, Real.tanh_zero]

/-- The API sand reaction is monotone non-decreasing for nonnegative
initial modulus and positive capacity. -/
theorem apiSandP_monotone (A pu k z y1 y2 : ℝ) (hApu : 0 < A * pu)
    (hkz : 0 ≤ k * z) (h12 : y1 ≤ y2) :
    apiSandP A pu k z y1 ≤ apiSandP A pu k z y2 := by
  unfold apiSandP
  have hc : 0 ≤ k * z / (A * pu) := div_nonneg hkz hApu.le
  exact mul_le_mul_of_nonneg_left
    (real_tanh_strictMono.monotone (mul_le_mul_of_nonneg_left h12 hc))
    hApu.le

/-- The Reese stiff clay reaction vanishes at zero deflection. -/
theorem reeseStiffClayP_zero (z pc yc ks As : ℝ) (hAs : 0 < As)
    (hyc : 0 < yc) :
    reeseStiffClayP z pc yc ks As 0 = 0 := by
  unfold reeseStiffClayP reeseStiffClayPpos
  rw [if_neg (lt_irrefl 0), if_pos (by positivity : (0 : ℝ) ≤ As * yc)]
  simp [Real.sqrt_zero]

/-- Claim C5 (counterexample): the Reese stiff clay variant modelled from
the spec's five-segment description is not monotone non-decreasing on
`y ≥ 0` — on its softening branch the reaction at the larger deflection 5
is strictly below the reaction at 4 (depth 1, `p_c = 100`, `y_c = 1`,
`ks = 1000`, `A_s = 1/2`). -/
theorem py_monotonicity_counterexample :
    (0 : ℝ) ≤ 4 ∧ (4 : ℝ) ≤ 5 ∧
    reeseStiffClayP 1 100 1 1000 (1 / 2) 5
      < reeseStiffClayP 1 100 1 1000 (1 / 2) 4 := by
  refine ⟨by norm_num, by norm_num, ?_⟩
  unfold reeseStiffClayP reeseStiffClayPpos
  norm_num

/-- Claim C5 (amended): at every depth, on `0 ≤ y1 ≤ y2`, the Matlock soft
clay and API sand reactions are monotone non-decreasing and vanish at zero
deflection, and the Reese stiff clay reaction vanishes at zero deflection;
Reese monotonicity holds only up to the peak of its five-segment curve
(the softening branch beyond the peak decreases, see the
counterexample). -/
theorem py_curves_amended (pu y50 A pus k z pc yc ks As y1 y2 : ℝ)
    (hpu : 0 < pu) (hy50 : 0 < y50) (hApu : 0 < A * pus) (hkz : 0 ≤ k * z)
    (hAs : 0 < As) (hyc : 0 < yc) (hy1 : 0 ≤ y1) (h12 : y1 ≤ y2) :
    matlockP pu y50 0 = 0 ∧
    matlockP pu y50 y1 ≤ matlockP pu y50 y2 ∧
    apiSandP A pus k z 0 = 0 ∧
    apiSandP A pus k z y1 ≤ apiSandP A pus k z y2 ∧
    reeseStiffClayP z pc yc ks As 0 = 0 := by
  refine ⟨?_, ?_, apiSandP_zero A pus k z,
    apiSandP_monotone A pus k z y1 y2 hApu hkz h12,
    reeseStiffClayP_zero z pc yc ks As hAs hyc⟩
  · rw [matlockP_of_nonneg pu y50 0 le_rfl]
    exact matlockPpos_zero pu y50 hy50
  · rw [matlockP_of_nonneg pu y50 y1 hy1,
      matlockP_of_nonneg pu y50 y2 (hy1.trans h12)]
    exact matlockPpos_monotone pu y50 y1 y2 hpu hy50 hy1 h12

/-- Witness for the amended C5: the monotonicity and zero facts evaluated
at concrete parameters and deflections. -/
theorem py_curves_amended_witness :
    matlockP 1 1 0 = 0 ∧
    matlockP 1 1 0 ≤ matlockP 1 1 1 ∧
    apiSandP 1 1 1 1 0 = 0 ∧
    apiSandP 1 1 1 1 0 ≤ apiSandP 1 1 1 1 1 ∧
    reeseStiffClayP 1 1 1 1 1 0 = 0 :=
  py_curves_amended 1 1 1 1 1 1 1 1 1 1 0 1 (by norm_num) (by norm_num)
    (by norm_num) (by norm_num) (by norm_num) (by norm_num) (by norm_num)
    (by norm_num)

/-- Witness for C4: the equal-length property evaluated at a concrete valid
input. -/
theorem solve_results_equal_length_witness :
    (solveCore pile0 lc0 cfgA).depths.length = cfgA.numNodes ∧
    (solveCore pile0 lc0 cfgA).deflections.length = cfgA.numNodes ∧
    (solveCore pile0 lc0 cfgA).moments.length = cfgA.numNodes ∧
    (solveCore pile0 lc0 cfgA).shears.length = cfgA.numNodes ∧
    (solveCore pile0 lc0 cfgA).soilReactions.length = cfgA.numNodes :=
  solve_results_equal_length pile0 soil0 lc0 cfgA (solveCore pile0 lc0 cfgA)
    (by
      have hv : validateInput pile0 soil0 lc0 cfgA = none := by
        norm_num [validateInput, pile0, soil0, lc0, cfgA,
          soilProfileContiguous]
      simp [solve_pile, hv])

end PileDesigner
